import Mathlib

set_option linter.unusedVariables false
set_option maxRecDepth 4000

/-!
Shallow embedding of `src/templatesRequireInputsRule.ts` (rule
`templates-require-inputs`).

The TypeScript file defines:
- `ComponentTracker` — per tag name, a pending queue of element usages plus
  an optional resolved component; `addElement` either evaluates a usage
  immediately (component known) or buffers it, `addComponent` registers the
  component and drains the queue (`process` formats the failures);
- `TemplateRequireInputTracker` — the registry mapping tag names to
  `ComponentTracker`s, with a skip-list of literal tag names and one regex;
- `InputMetadataWalker` — collects `@Input` members into pending inputs
  (alias, requiredness from the `@required` marker / mode / initializer,
  optional `@required if <expr>` expression) and builds the per-input checks
  (`createDefaultMatch`, `createCustomMatch`, and the wrapping in `pushLast`).

Pure data is translated directly; TypeScript `null` / `undefined` results
become `Option`, and the dynamic `new Function` expression compiler (a host
capability) is passed in as an `Except`-valued argument so that compile
failures and evaluation throws are explicit.
-/

/-- Model of the fragment of `ts.Decorator` that the rule reads: the file name
of `getSourceFile()` and the node's `pos`. -/
structure Decorator where
  fileName : String
  pos : Nat
deriving DecidableEq

/-- Model of the fragment of `ast.ElementAst` that the rule reads: the tag
name, the names of the bound inputs (`element.inputs[i].name`), the names of
the attributes (`element.attrs[i].name`), and `sourceSpan.start.line`. -/
structure ElementAst where
  name : String
  inputs : List String
  attrs : List String
  line : Nat
deriving DecidableEq

/-- `IFailure` from the source: input name, decorator node, message. -/
structure IFailure where
  inputName : String
  decorator : Decorator
  message : String
deriving DecidableEq

/-- `IElementTracker` from the source: the record built at the top of
`ComponentTracker.addElement`. -/
structure IElementTracker where
  fileName : String
  element : ElementAst
  properties : List String
deriving DecidableEq

/-- `IComponent` from the source: the ordered property names and the compiled
per-input checks. -/
structure IComponent where
  properties : List String
  checks : List (List Bool → Option IFailure)

/-- The mutable state of one `ComponentTracker` instance: the
`elementQueue` field and the (initially unset) `component` field. -/
structure CTState where
  elementQueue : List IElementTracker
  component : Option IComponent

def CTState.init : CTState := ⟨[], none⟩

/-- The record built in `ComponentTracker.addElement`:
`properties = element.inputs.concat(element.attrs).map(i => i.name)`. -/
def mkRecord (fileName : String) (element : ElementAst) : IElementTracker :=
  { fileName := fileName
    element := element
    properties := element.inputs ++ element.attrs }

/-- The `args` array in `ComponentTracker.process`: one Bool per component
property, true iff the usage supplied it
(`tracker.properties.indexOf(property) > -1`). -/
def presenceVector (component : IComponent) (tracker : IElementTracker) : List Bool :=
  component.properties.map (fun property => tracker.properties.contains property)

/-- The location qualifier appended in `ComponentTracker.process`:
`(declared in <declFile>:<declPos>)` when the usage is evaluated immediately
(`fromElement = true`, the failure is reported at the element), and
`(used in <usageFile>:<usageLine>)` when the usage is drained from the queue
(`fromElement = false`, the failure is reported at the decorator). -/
def suffixFor (fromElement : Bool) (tracker : IElementTracker) (result : IFailure) : String :=
  if fromElement then
    " (declared in " ++ result.decorator.fileName ++ ":" ++ toString result.decorator.pos ++ ")"
  else
    " (used in " ++ tracker.fileName ++ ":" ++ toString tracker.element.line ++ ")"

/-- The message rewriting in `ComponentTracker.process`: prefix with
`Component <tag> `, append the location qualifier. -/
def decorateFailure (tracker : IElementTracker) (fromElement : Bool) (result : IFailure) : IFailure :=
  { result with
    message := "Component <" ++ tracker.element.name ++ "> " ++ result.message
      ++ suffixFor fromElement tracker result }

/-- `ComponentTracker.process`: run every check on the presence vector, keep
the non-null results, rewrite their messages. -/
def ComponentTracker.process (component : IComponent) (tracker : IElementTracker)
    (fromElement : Bool) : List IFailure :=
  let args := presenceVector component tracker
  (component.checks.map (fun check =>
    (check args).map (decorateFailure tracker fromElement))).filterMap id

/-- The location-independent part of `ComponentTracker.process`: prefix only,
no location qualifier. Used to state in what sense the two evaluation paths
agree. -/
def decorateCore (tracker : IElementTracker) (result : IFailure) : IFailure :=
  { result with
    message := "Component <" ++ tracker.element.name ++ "> " ++ result.message }

/-- `ComponentTracker.process` without the path-dependent location suffix. -/
def ComponentTracker.processCore (component : IComponent) (tracker : IElementTracker) :
    List IFailure :=
  let args := presenceVector component tracker
  (component.checks.map (fun check =>
    (check args).map (decorateCore tracker))).filterMap id

/-- `ComponentTracker.addElement`: evaluate immediately when the component is
known (returning `some failures`), otherwise push onto the queue — the source
then falls off the end of the function, i.e. returns `undefined`, modeled as
`none`. -/
def ComponentTracker.addElement (st : CTState) (fileName : String) (element : ElementAst) :
    Option (List IFailure) × CTState :=
  let record := mkRecord fileName element
  match st.component with
  | some component => (some (ComponentTracker.process component record true), st)
  | none => (none, { st with elementQueue := st.elementQueue ++ [record] })

/-- `ComponentTracker.addComponent`: store the component (unconditionally
overwriting any previous one), empty the queue, and drain the old queue
through `process` with `fromElement = false`. -/
def ComponentTracker.addComponent (st : CTState) (component : IComponent) :
    List IFailure × CTState :=
  let queue := st.elementQueue
  ((queue.map (fun item => ComponentTracker.process component item false)).flatten,
    { elementQueue := [], component := some component })

/-- One event seen by a single tag's `ComponentTracker`. -/
inductive TrackerEvent where
  | usage (fileName : String) (element : ElementAst)
  | decl (component : IComponent)

/-- Process one event, returning the new state and the failures the call
returned (a buffered usage returns no failures). -/
def stepEvent (st : CTState) (e : TrackerEvent) : CTState × List IFailure :=
  match e with
  | TrackerEvent.usage fileName element =>
    let r := ComponentTracker.addElement st fileName element
    (r.2, r.1.getD [])
  | TrackerEvent.decl component =>
    let r := ComponentTracker.addComponent st component
    (r.2, r.1)

/-- Process a sequence of events, concatenating the returned failures in
order. -/
def runEvents (st : CTState) (events : List TrackerEvent) : CTState × List IFailure :=
  match events with
  | [] => (st, [])
  | e :: rest =>
    let r := stepEvent st e
    let r2 := runEvents r.1 rest
    (r2.1, r.2 ++ r2.2)

def usageEvents (us : List (String × ElementAst)) : List TrackerEvent :=
  us.map (fun u => TrackerEvent.usage u.1 u.2)

/-- What the failure set looks like with the path-dependent message stripped:
the input name and the decorator node. -/
def stripLocation (f : IFailure) : String × Decorator := (f.inputName, f.decorator)

theorem runEvents_append (xs ys : List TrackerEvent) (st : CTState) :
    runEvents st (xs ++ ys)
      = ((runEvents (runEvents st xs).1 ys).1,
         (runEvents st xs).2 ++ (runEvents (runEvents st xs).1 ys).2) := by
  induction xs generalizing st with
  | nil => simp [runEvents]
  | cons e rest ih =>
    simp [runEvents, ih, List.append_assoc]

theorem runEvents_usages_unresolved (us : List (String × ElementAst)) (q : List IElementTracker) :
    runEvents ⟨q, none⟩ (usageEvents us)
      = (⟨q ++ us.map (fun u => mkRecord u.1 u.2), none⟩, []) := by
  induction us generalizing q with
  | nil => simp [runEvents, usageEvents]
  | cons u rest ih =>
    simp only [usageEvents, List.map_cons, runEvents, stepEvent, ComponentTracker.addElement]
    rw [show (usageEvents rest = rest.map (fun u => TrackerEvent.usage u.1 u.2)) from rfl] at ih
    rw [ih (q ++ [mkRecord u.1 u.2])]
    simp

theorem runEvents_usages_resolved (us : List (String × ElementAst)) (c : IComponent) :
    runEvents ⟨[], some c⟩ (usageEvents us)
      = (⟨[], some c⟩,
         (us.map (fun u => ComponentTracker.process c (mkRecord u.1 u.2) true)).flatten) := by
  induction us with
  | nil => simp [runEvents, usageEvents]
  | cons u rest ih =>
    simp only [usageEvents, List.map_cons, runEvents, stepEvent, ComponentTracker.addElement]
    rw [show (usageEvents rest = rest.map (fun u => TrackerEvent.usage u.1 u.2)) from rfl] at ih
    rw [ih]
    simp

theorem stepEvent_decl (st : CTState) (c : IComponent) :
    stepEvent st (TrackerEvent.decl c)
      = (⟨[], some c⟩,
         (st.elementQueue.map (fun item => ComponentTracker.process c item false)).flatten) := rfl

/-- Append the location suffix to an already-prefixed failure. -/
def addSuffix (fromElement : Bool) (tracker : IElementTracker) (f : IFailure) : IFailure :=
  { f with message := f.message ++ suffixFor fromElement tracker f }

theorem decorateFailure_eq (tracker : IElementTracker) (fromElement : Bool) :
    decorateFailure tracker fromElement
      = addSuffix fromElement tracker ∘ decorateCore tracker := by
  funext result
  cases fromElement <;> rfl

theorem process_eq_core (c : IComponent) (r : IElementTracker) (b : Bool) :
    ComponentTracker.process c r b
      = (ComponentTracker.processCore c r).map (addSuffix b r) := by
  unfold ComponentTracker.process ComponentTracker.processCore
  rw [List.filterMap_map, List.filterMap_map, List.map_filterMap]
  congr 1
  funext check
  simp [Option.map_map, decorateFailure_eq]

theorem map_strip_process (c : IComponent) (r : IElementTracker) (b : Bool) :
    (ComponentTracker.process c r b).map stripLocation
      = (ComponentTracker.processCore c r).map stripLocation := by
  rw [process_eq_core, List.map_map]
  congr 1

theorem runEvents_one_decl (us1 us2 : List (String × ElementAst)) (c : IComponent) :
    (runEvents CTState.init
        (usageEvents us1 ++ TrackerEvent.decl c :: usageEvents us2)).2
      = (us1.map (fun u => ComponentTracker.process c (mkRecord u.1 u.2) false)).flatten
        ++ (us2.map (fun u => ComponentTracker.process c (mkRecord u.1 u.2) true)).flatten := by
  rw [runEvents_append]
  have h1 : runEvents CTState.init (usageEvents us1)
      = (⟨us1.map (fun u => mkRecord u.1 u.2), none⟩, []) := by
    simpa [CTState.init] using runEvents_usages_unresolved us1 []
  rw [h1]
  show ([] ++ (runEvents _ (TrackerEvent.decl c :: usageEvents us2)).2) = _
  rw [show (∀ st e rest, runEvents st (e :: rest)
        = ((runEvents (stepEvent st e).1 rest).1,
           (stepEvent st e).2 ++ (runEvents (stepEvent st e).1 rest).2)) from
      fun st e rest => rfl]
  rw [stepEvent_decl, runEvents_usages_resolved]
  simp only [List.map_map, List.nil_append]
  rfl

/-! Concrete fixtures mirroring the repository's own test scenario: component
`foobar` with one statically required input `foo`, used without `foo`. -/

def fooDecorator : Decorator := ⟨"comp.ts", 5⟩

/-- The check built for a statically required input `foo` at index 0. -/
def fooCheck : List Bool → Option IFailure := fun args =>
  if args.getD 0 false then none
  else some ⟨"foo", fooDecorator, "is missing required input `foo`"⟩

def fooComponent : IComponent := ⟨["foo"], [fooCheck]⟩

/-- A `<foobar>` usage on line 12 of `file.ts` supplying nothing. -/
def foobarUse : ElementAst := ⟨"foobar", [], [], 12⟩

/-- Claim C1, counterexample: with one declaration and one usage of tag
`foobar`, processing the usage before the declaration reports the failure
with a `(used in file.ts:12)` qualifier, while processing the declaration
first reports the same missing input with a `(declared in comp.ts:5)`
qualifier — the reported failure sets differ in their message texts, so they
are not identical across orders. -/
theorem C1_counterexample :
    (runEvents CTState.init
        [TrackerEvent.usage "file.ts" foobarUse, TrackerEvent.decl fooComponent]).2
      = [⟨"foo", fooDecorator,
          "Component <foobar> is missing required input `foo` (used in file.ts:12)"⟩]
    ∧ (runEvents CTState.init
        [TrackerEvent.decl fooComponent, TrackerEvent.usage "file.ts" foobarUse]).2
      = [⟨"foo", fooDecorator,
          "Component <foobar> is missing required input `foo` (declared in comp.ts:5)"⟩]
    ∧ (runEvents CTState.init
        [TrackerEvent.usage "file.ts" foobarUse, TrackerEvent.decl fooComponent]).2
      ≠ (runEvents CTState.init
        [TrackerEvent.decl fooComponent, TrackerEvent.usage "file.ts" foobarUse]).2 := by
  refine ⟨rfl, rfl, ?_⟩
  decide

/-- Claim C1, amended: for one declaration `c` and usages `us1 ++ us2` with
the declaration processed after `us1` and before `us2`, every usage is
evaluated exactly once — the buffered usages `us1` exactly once when the
declaration is registered (drained, `fromElement = false`), the later usages
`us2` exactly once immediately (`fromElement = true`) — and the reported
failure set is independent of where the declaration sits *up to the location
qualifier of the messages*: projected to input name and decorator node, the
failures are exactly those of evaluating every usage, in order, regardless
of the declaration's position. (As stated the claim is false: the message
texts differ between the two paths, see the counterexample.) -/
theorem C1_theorem (us1 us2 : List (String × ElementAst)) (c : IComponent) :
    (runEvents CTState.init
        (usageEvents us1 ++ TrackerEvent.decl c :: usageEvents us2)).2
      = (us1.map (fun u => ComponentTracker.process c (mkRecord u.1 u.2) false)).flatten
        ++ (us2.map (fun u => ComponentTracker.process c (mkRecord u.1 u.2) true)).flatten
    ∧ ((runEvents CTState.init
        (usageEvents us1 ++ TrackerEvent.decl c :: usageEvents us2)).2).map stripLocation
      = ((us1 ++ us2).map
          (fun u => (ComponentTracker.processCore c (mkRecord u.1 u.2)).map stripLocation)).flatten := by
  refine ⟨runEvents_one_decl us1 us2 c, ?_⟩
  rw [runEvents_one_decl]
  simp only [List.map_append, List.map_flatten, List.map_map, List.flatten_append]
  congr 1
  · exact congrArg List.flatten
      (List.map_congr_left (fun u _ => map_strip_process c (mkRecord u.1 u.2) false))
  · exact congrArg List.flatten
      (List.map_congr_left (fun u _ => map_strip_process c (mkRecord u.1 u.2) true))

/-- Claim C2, counterexample: a usage evaluated immediately (usage after its
declaration) gets a `(declared in <declFile>:<declPos>)` qualifier, not the
`(used in <file>:<line>)` qualifier of its own site that the claim mandates
for every failing usage. -/
theorem C2_counterexample :
    (ComponentTracker.addElement ⟨[], some fooComponent⟩ "file.ts" foobarUse).1
      = some [⟨"foo", fooDecorator,
          "Component <foobar> is missing required input `foo` (declared in comp.ts:5)"⟩]
    ∧ (ComponentTracker.addElement ⟨[], some fooComponent⟩ "file.ts" foobarUse).1
      ≠ some [⟨"foo", fooDecorator,
          "Component <foobar> is missing required input `foo` (used in file.ts:12)"⟩] := by
  refine ⟨rfl, ?_⟩
  decide

/-- Claim C2, amended: every reported failure message is prefixed with the
component tag name; a failure produced by draining the pending queue (usage
observed before the declaration) is suffixed with
`(used in <file>:<line>)` naming the usage's own file and line, while a
failure produced by immediate evaluation (usage after the declaration) is
instead suffixed with `(declared in <file>:<pos>)` naming the failing
input's decorator location. -/
theorem C2_theorem (c : IComponent) (t : IElementTracker) (f : IFailure) :
    (f ∈ ComponentTracker.process c t false →
      ∃ core, f.message
        = "Component <" ++ t.element.name ++ "> " ++ core
          ++ (" (used in " ++ t.fileName ++ ":" ++ toString t.element.line ++ ")"))
    ∧ (f ∈ ComponentTracker.process c t true →
      ∃ core, f.message
        = "Component <" ++ t.element.name ++ "> " ++ core
          ++ (" (declared in " ++ f.decorator.fileName ++ ":"
              ++ toString f.decorator.pos ++ ")")) := by
  have hmem : ∀ (b : Bool), f ∈ ComponentTracker.process c t b →
      ∃ r : IFailure, f = addSuffix b t (decorateCore t r) := by
    intro b hf
    rw [process_eq_core] at hf
    rcases List.mem_map.mp hf with ⟨g, hg, hfg⟩
    unfold ComponentTracker.processCore at hg
    rw [List.filterMap_map] at hg
    rcases List.mem_filterMap.mp hg with ⟨check, _, hcheck⟩
    simp only [Function.comp, id] at hcheck
    rcases Option.map_eq_some'.mp hcheck with ⟨r, _, hr⟩
    exact ⟨r, by rw [← hfg, ← hr]⟩
  constructor
  · intro hf
    rcases hmem false hf with ⟨r, hr⟩
    refine ⟨r.message, ?_⟩
    rw [hr]
    simp [addSuffix, decorateCore, suffixFor, String.append_assoc]
  · intro hf
    rcases hmem true hf with ⟨r, hr⟩
    refine ⟨r.message, ?_⟩
    rw [hr]
    simp [addSuffix, decorateCore, suffixFor, String.append_assoc]

/-- Witness for Claim C2's amended theorem at the concrete fixture: the
drained `<foobar>` failure carries the usage-site qualifier. -/
theorem C2_witness :
    ∃ core,
      (IFailure.mk "foo" fooDecorator
        "Component <foobar> is missing required input `foo` (used in file.ts:12)").message
      = "Component <" ++ (mkRecord "file.ts" foobarUse).element.name ++ "> " ++ core
        ++ (" (used in " ++ (mkRecord "file.ts" foobarUse).fileName ++ ":"
            ++ toString (mkRecord "file.ts" foobarUse).element.line ++ ")") :=
  (C2_theorem fooComponent (mkRecord "file.ts" foobarUse)
      (IFailure.mk "foo" fooDecorator
        "Component <foobar> is missing required input `foo` (used in file.ts:12)")).1
    (by decide)

/-! Fixtures for the duplicate-declaration behavior: two distinct components
registered under the same tag. -/

def decoratorA : Decorator := ⟨"a.ts", 1⟩

def decoratorB : Decorator := ⟨"b.ts", 2⟩

/-- A check that always fails, marking failures as coming from the first
declaration. -/
def checkA : List Bool → Option IFailure :=
  fun _ => some ⟨"fromFirst", decoratorA, "msg from first declaration"⟩

/-- A check that always fails, marking failures as coming from the second
declaration. -/
def checkB : List Bool → Option IFailure :=
  fun _ => some ⟨"fromSecond", decoratorB, "msg from second declaration"⟩

def componentA : IComponent := ⟨[], [checkA]⟩

def componentB : IComponent := ⟨[], [checkB]⟩

/-- Claim C3, counterexample: after registering `componentA` and then
`componentB` for the same tag, a subsequent usage is evaluated against the
*second* declaration's checks — `this.component = component` in
`addComponent` overwrites unconditionally, so the first declaration's checks
do not remain in effect. -/
theorem C3_counterexample :
    (ComponentTracker.addElement
        (ComponentTracker.addComponent
          (ComponentTracker.addComponent CTState.init componentA).2 componentB).2
        "file.ts" foobarUse).1
      = some [⟨"fromSecond", decoratorB,
          "Component <foobar> msg from second declaration (declared in b.ts:2)"⟩] := by
  rfl

/-- Claim C3, amended: at most one `ComponentDeclaration` is in effect at a
time, but a second declaration for the same tag silently *replaces* the
first: after `addComponent st c` the stored component is `c`, and every
subsequent usage is evaluated immediately against `c`'s checks (the most
recently registered declaration), not against any earlier one. -/
theorem C3_theorem (st : CTState) (c : IComponent) (fileName : String) (element : ElementAst) :
    (ComponentTracker.addComponent st c).2.component = some c
    ∧ ComponentTracker.addElement (ComponentTracker.addComponent st c).2 fileName element
      = (some (ComponentTracker.process c (mkRecord fileName element) true),
         (ComponentTracker.addComponent st c).2) :=
  ⟨rfl, rfl⟩

/-! The `InputMetadataWalker` side: requiredness resolution (`visitNgInput`),
alias selection, and the check builders (`createDefaultMatch`,
`createCustomMatch`, and the wrapping in `pushLast`). -/

/-- The two rule modes (`const enum Mode`). -/
inductive Mode where
  | tagged
  | all
deriving DecidableEq

/-- `getMode`: `options[0] === 'all-without-defaults' ? Mode.All : Mode.Tagged`. -/
def getMode (options : List String) : Mode :=
  if options.getD 0 "" = "all-without-defaults" then Mode.all else Mode.tagged

/-- Helper for `String.prototype.includes`: does `sub` occur in the char
list? -/
def includesAux (sub : List Char) : List Char → Bool
  | [] => sub.isPrefixOf []
  | c :: rest => sub.isPrefixOf (c :: rest) || includesAux sub rest

/-- Model of JavaScript `s.includes(sub)`. -/
def strIncludes (s sub : String) : Bool :=
  includesAux sub.data s.data

/-- The requiredness resolution of `visitNgInput` (lines 216–221): `required`
starts as `decoratorText.includes('@required')`; if the marker is present it
is forced to true, otherwise in all-without-defaults mode it becomes
`property.initializer === undefined`. -/
def computeRequired (decoratorText : String) (options : List String)
    (hasInitializer : Bool) : Bool :=
  let required := strIncludes decoratorText "@required"
  if strIncludes decoratorText "@required" then true
  else if getMode options = Mode.all then !hasInitializer
  else required

/-- A decorator argument as `visitNgInput` classifies it: a string literal
(`ts.SyntaxKind.StringLiteral`) or anything else. -/
inductive DecoratorArg where
  | stringLiteral (text : String)
  | other
deriving DecidableEq

/-- The alias selection of `visitNgInput`:
`decoratorArgs.length > 0 && decoratorArgs[0] is a string literal ? its text
: property.name.getText()`. -/
def inputAlias (decoratorArgs : List DecoratorArg) (memberName : String) : String :=
  match decoratorArgs with
  | DecoratorArg.stringLiteral text :: _ => text
  | _ => memberName

/-- `IPendingInput` from the source (`alias` renamed `aliasName` and `match`
renamed `matchExpr`, since both are reserved in Lean; `matchExpr` is the
optional `@required if <expr>` expression text). -/
structure IPendingInput where
  name : String
  aliasName : String
  required : Bool
  node : Decorator
  matchExpr : Option String
deriving DecidableEq

/-- JavaScript `Array.prototype.indexOf`: index of the first occurrence, or
`-1`. -/
def jsIndexOf (l : List String) (x : String) : Int :=
  match l.findIdx? (fun y => y == x) with
  | some i => (i : Int)
  | none => -1

/-- JavaScript `args[i]` coerced to boolean for a boolean array: out-of-range
(including `-1`) reads `undefined`, which is falsy. -/
def jsGetBool (args : List Bool) (i : Int) : Bool :=
  if 0 ≤ i then args.getD i.toNat false else false

/-- `createDefaultMatch`: `i` is computed once from the sibling name list;
the check fails with ``is missing required input `<alias>` `` iff `!args[i]`. -/
def createDefaultMatch (properties : List String) (input : IPendingInput) :
    List Bool → Option String :=
  let i := jsIndexOf properties input.name
  fun args =>
    if !(jsGetBool args i) then
      some ("is missing required input `" ++ input.aliasName ++ "`")
    else none

/-- The wrapping in `pushLast` (lines 250–261): a string result from the
checker becomes an `IFailure` carrying the input's name and decorator node. -/
def wrapCheck (input : IPendingInput) (checker : List Bool → Option String) :
    List Bool → Option IFailure :=
  fun args =>
    match checker args with
    | none => none
    | some errMessage => some ⟨input.name, input.node, errMessage⟩

/-- The per-input check construction in `pushLast`: a non-required input gets
`() => null`; otherwise the checker is the custom match when an expression
was scanned and the default match when not, wrapped into an `IFailure`
producer. The (effectful) custom checker is passed in. -/
def buildCheck (properties : List String) (input : IPendingInput)
    (customChecker : List Bool → Option String) : List Bool → Option IFailure :=
  if !input.required then fun _ => none
  else
    wrapCheck input
      (match input.matchExpr with
       | some _ => customChecker
       | none => createDefaultMatch properties input)

/-- Claim C4: for an input with static requiredness true (no expression), the
produced check fails iff the presence vector's entry at the input's index —
`properties.indexOf(input.name)` — is false, with message
``is missing required input `<alias>` ``; and the alias used is the
decorator's first argument when it is a string literal, the member name
otherwise. -/
theorem C4_theorem (properties : List String) (input : IPendingInput)
    (customChecker : List Bool → Option String) (args : List Bool) (i : Nat)
    (hreq : input.required = true) (hexpr : input.matchExpr = none)
    (hidx : jsIndexOf properties input.name = (i : Int)) (hlen : i < args.length) :
    buildCheck properties input customChecker args
      = (if args.getD i false then none
         else some ⟨input.name, input.node,
            "is missing required input `" ++ input.aliasName ++ "`"⟩)
    ∧ (∀ text rest memberName,
        inputAlias (DecoratorArg.stringLiteral text :: rest) memberName = text)
    ∧ (∀ memberName, inputAlias [] memberName = memberName)
    ∧ (∀ rest memberName, inputAlias (DecoratorArg.other :: rest) memberName = memberName) := by
  refine ⟨?_, fun text rest memberName => rfl, fun memberName => rfl,
    fun rest memberName => rfl⟩
  unfold buildCheck
  rw [hreq, hexpr]
  simp only [Bool.not_true, Bool.false_eq_true, if_false]
  unfold wrapCheck createDefaultMatch
  rw [hidx]
  simp only [jsGetBool, Int.toNat_natCast, if_pos (by positivity : (0 : Int) ≤ (i : Int))]
  cases hb : args.getD i false <;> simp [hb]

/-- A concrete statically required input: member `foo`, aliased
`renamed-input`. -/
def sampleStaticInput : IPendingInput := ⟨"foo", "renamed-input", true, fooDecorator, none⟩

/-- Witness for Claim C4 at a concrete input: `foo` required, not supplied —
the check fails and the message uses the alias. -/
theorem C4_witness :
    sampleStaticInput.required = true
    ∧ sampleStaticInput.matchExpr = none
    ∧ jsIndexOf ["foo"] sampleStaticInput.name = ((0 : Nat) : Int)
    ∧ (0 : Nat) < [false].length
    ∧ (buildCheck ["foo"] sampleStaticInput (fun _ => none) [false]
        = (if [false].getD 0 false then none
           else some ⟨sampleStaticInput.name, sampleStaticInput.node,
              "is missing required input `" ++ sampleStaticInput.aliasName ++ "`"⟩)
      ∧ (∀ text rest memberName,
          inputAlias (DecoratorArg.stringLiteral text :: rest) memberName = text)
      ∧ (∀ memberName, inputAlias [] memberName = memberName)
      ∧ (∀ rest memberName, inputAlias (DecoratorArg.other :: rest) memberName = memberName)) :=
  ⟨rfl, rfl, by decide, by decide,
    C4_theorem ["foo"] sampleStaticInput (fun _ => none) [false] 0 rfl rfl (by decide) (by decide)⟩

/-- The error message built by `tryExec` in `createCustomMatch`:
`Could not evaluate @required directive on <component>.<input> \`<expr>\`:
<cause>`. -/
def requiredEvalError (componentName : String) (input : IPendingInput) (cause : String) : String :=
  "Could not evaluate @required directive on " ++ componentName ++ "." ++ input.name
    ++ " `" ++ input.matchExpr.getD "" ++ "`: " ++ cause

/-- `createCustomMatch`: the compiled expression is built once, outside the
returned closure, via `new Function(...properties, 'return <expr>')` — a host
capability whose outcome (a predicate over the presence vector that may
itself throw, or a compile error) is the `compiled` argument. Both the
compilation and each evaluation run inside `tryExec`, which rethrows any
error as the fatal `requiredEvalError`; a successful evaluation yields the
``is missing input `<alias>` required when `<expr>` `` message iff the
predicate is truthy. -/
def createCustomMatch (componentName : String) (input : IPendingInput)
    (compiled : Except String (List Bool → Except String Bool)) :
    Except String (List Bool → Except String (Option String)) :=
  match compiled with
  | Except.error err => Except.error (requiredEvalError componentName input err)
  | Except.ok fn =>
    Except.ok (fun args =>
      match fn args with
      | Except.error err => Except.error (requiredEvalError componentName input err)
      | Except.ok value =>
        Except.ok (if value then
          some ("is missing input `" ++ input.aliasName ++ "` required when `"
            ++ input.matchExpr.getD "" ++ "`")
        else none))

/-- Claim C5: for an expression-guarded input whose expression compiled to a
(non-throwing) predicate `p`, the check produced by `createCustomMatch` fails
iff `p` evaluates to true on the presence vector, with message
``is missing input `<alias>` required when `<expr>` ``; in particular when
`p` evaluates to false it yields no finding, regardless of what the presence
vector says about the input itself. The predicate is compiled once: the same
checker, built from the single `compiled` outcome, is used for every
presence vector. -/
theorem C5_theorem (componentName : String) (input : IPendingInput)
    (p : List Bool → Bool) :
    createCustomMatch componentName input (Except.ok (fun args => Except.ok (p args)))
      = Except.ok (fun args =>
          Except.ok (if p args then
            some ("is missing input `" ++ input.aliasName ++ "` required when `"
              ++ input.matchExpr.getD "" ++ "`")
          else none)) := rfl

/-- Claim C6: a failed compilation, or a predicate that throws when
evaluated, surfaces as a thrown error (`Except.error`, never a lint
finding): the raised message is `requiredEvalError`, which spells out the
component name, the input name, the original expression text, and the
underlying cause. -/
theorem C6_theorem (componentName : String) (input : IPendingInput) :
    (∀ err, createCustomMatch componentName input (Except.error err)
        = Except.error (requiredEvalError componentName input err))
    ∧ (∀ fn args err, fn args = Except.error err →
        ∃ checker,
          createCustomMatch componentName input (Except.ok fn) = Except.ok checker
          ∧ checker args = Except.error (requiredEvalError componentName input err))
    ∧ (∀ cause, ∃ s1 s2 s3 s4,
        requiredEvalError componentName input cause
          = s1 ++ componentName ++ s2 ++ input.name ++ s3
            ++ input.matchExpr.getD "" ++ s4 ++ cause) := by
  refine ⟨fun err => rfl, fun fn args err h => ?_, fun cause =>
    ⟨"Could not evaluate @required directive on ", ".", " `", "`: ", rfl⟩⟩
  refine ⟨_, rfl, ?_⟩
  simp only [h]

/-- A concrete expression-guarded input: member `bar` guarded by `!foo`. -/
def sampleExprInput : IPendingInput := ⟨"bar", "bar", true, fooDecorator, some "!foo"⟩

/-- The selector of the concrete component used in the witnesses. -/
def sampleComponentName : String := "foobar"

/-- Witness for Claim C6 at a concrete input: a predicate that throws `boom`
on the empty presence vector is rethrown as the identifying fatal error. -/
theorem C6_witness :
    (fun (_ : List Bool) => (Except.error "boom" : Except String Bool)) [] = Except.error "boom"
    ∧ ∃ checker,
        createCustomMatch sampleComponentName sampleExprInput
            (Except.ok (fun _ => Except.error "boom"))
          = Except.ok checker
        ∧ checker [] = Except.error (requiredEvalError sampleComponentName sampleExprInput "boom") :=
  ⟨rfl, (C6_theorem sampleComponentName sampleExprInput).2.1
    (fun _ => Except.error "boom") [] "boom" rfl⟩

/-- The wrapping in `pushLast` for the expression path: the checker's string
result becomes an `IFailure` naming the input; a thrown error propagates. -/
def wrapCheckE (input : IPendingInput) (checker : List Bool → Except String (Option String)) :
    List Bool → Except String (Option IFailure) :=
  fun args =>
    match checker args with
    | Except.error err => Except.error err
    | Except.ok none => Except.ok none
    | Except.ok (some errMessage) => Except.ok (some ⟨input.name, input.node, errMessage⟩)

/-- Claim C10: the compiled check for an expression-guarded input never
consults the presence of the guarded input itself — whenever the predicate
evaluates to true, a failure naming that input is produced, even on presence
vectors where the input was in fact supplied at the usage site
(`jsGetBool args (jsIndexOf properties input.name) = true`). -/
theorem C10_theorem (componentName : String) (input : IPendingInput)
    (properties : List String) (p : List Bool → Bool) (args : List Bool)
    (hp : p args = true)
    (hsupplied : jsGetBool args (jsIndexOf properties input.name) = true) :
    ∃ checker,
      createCustomMatch componentName input (Except.ok (fun a => Except.ok (p a)))
        = Except.ok checker
      ∧ wrapCheckE input checker args
        = Except.ok (some ⟨input.name, input.node,
            "is missing input `" ++ input.aliasName ++ "` required when `"
              ++ input.matchExpr.getD "" ++ "`"⟩) := by
  refine ⟨_, rfl, ?_⟩
  simp only [wrapCheckE, hp, if_true]

/-- Witness for Claim C10 at a concrete input: `bar` is supplied
(`args = [true]`, index 0) yet the always-true predicate still produces the
failure naming `bar`. -/
theorem C10_witness :
    (fun (_ : List Bool) => true) [true] = true
    ∧ jsGetBool [true] (jsIndexOf ["bar"] sampleExprInput.name) = true
    ∧ ∃ checker,
        createCustomMatch sampleComponentName sampleExprInput
            (Except.ok (fun a => Except.ok ((fun (_ : List Bool) => true) a)))
          = Except.ok checker
        ∧ wrapCheckE sampleExprInput checker [true]
          = Except.ok (some ⟨sampleExprInput.name, sampleExprInput.node,
              "is missing input `" ++ sampleExprInput.aliasName ++ "` required when `"
                ++ sampleExprInput.matchExpr.getD "" ++ "`"⟩) :=
  ⟨rfl, by decide,
    C10_theorem sampleComponentName sampleExprInput ["bar"] (fun _ => true) [true] rfl (by decide)⟩

/-- Claim C7: in all-without-defaults mode, an input with a default
initializer and no `@required` marker is not required; an input without an
initializer is required; and an explicit `@required` marker forces
requiredness even when an initializer is present. -/
theorem C7_theorem (decoratorText : String) :
    (strIncludes decoratorText "@required" = false →
      computeRequired decoratorText ["all-without-defaults"] true = false)
    ∧ (strIncludes decoratorText "@required" = false →
      computeRequired decoratorText ["all-without-defaults"] false = true)
    ∧ (strIncludes decoratorText "@required" = true →
      computeRequired decoratorText ["all-without-defaults"] true = true) := by
  refine ⟨fun h => ?_, fun h => ?_, fun h => ?_⟩ <;>
    simp [computeRequired, getMode, h]

/-- Decorator text of an input with an initializer and no marker. -/
def textWithDefault : String := "@Input() public foo = 42;"

/-- Decorator text of an input with no initializer and no marker. -/
def textNoDefault : String := "@Input() public foo;"

/-- Decorator text of an input with an initializer and the marker. -/
def textMarkedRequired : String := "@Input() public foo = 42; // @required"

/-- Witness for Claim C7 on concrete decorator texts: with an initializer
and no marker the input is not required; without an initializer it is; with
the marker it is required despite the initializer. -/
theorem C7_witness :
    (strIncludes textWithDefault "@required" = false
      ∧ computeRequired textWithDefault ["all-without-defaults"] true = false)
    ∧ (strIncludes textNoDefault "@required" = false
      ∧ computeRequired textNoDefault ["all-without-defaults"] false = true)
    ∧ (strIncludes textMarkedRequired "@required" = true
      ∧ computeRequired textMarkedRequired ["all-without-defaults"] true = true) :=
  ⟨⟨by decide, (C7_theorem textWithDefault).1 (by decide)⟩,
   ⟨by decide, (C7_theorem textNoDefault).2.1 (by decide)⟩,
   ⟨by decide, (C7_theorem textMarkedRequired).2.2 (by decide)⟩⟩

/-! The `TemplateRequireInputTracker` registry: tag name → `ComponentTracker`,
with the skip-list applied to usage observations. -/

/-- The literal entries of `skippedElements` (the duplicate `footer` is in
the source). -/
def skippedElementNames : List String :=
  ["div", "a", "p", "span", "em", "strong", "i", "b", "ul", "li", "ol", "header",
   "footer", "nav", "main", "aside", "footer", "br", "img", "table", "thead",
   "tbody", "td", "th", "tr"]

/-- The one regex entry of `skippedElements`, `/^ng\-.+/`: the name starts
with `ng-` followed by at least one character that is not a JavaScript line
terminator. -/
def matchesNgPattern (name : String) : Bool :=
  "ng-".data.isPrefixOf name.data &&
    (match name.data.drop 3 with
     | [] => false
     | c :: _ =>
       !(c == Char.ofNat 10 || c == Char.ofNat 13
         || c == Char.ofNat 0x2028 || c == Char.ofNat 0x2029))

/-- The `tags` map of `TemplateRequireInputTracker`, as an association list. -/
structure TRITState where
  tags : List (String × CTState)

def TRITState.init : TRITState := ⟨[]⟩

/-- Look up a tag's tracker state, if one exists. -/
def TRITState.lookup (st : TRITState) (name : String) : Option CTState :=
  (st.tags.find? (fun p => p.1 == name)).map (fun p => p.2)

/-- Store a tag's tracker state (most recent entry shadows older ones). -/
def TRITState.set (st : TRITState) (name : String) (ct : CTState) : TRITState :=
  ⟨(name, ct) :: st.tags⟩

/-- `TemplateRequireInputTracker.addElement`: a tag on the literal skip-list,
or matching the `/^ng\-.+/` pattern, returns `null` (modeled `none`) with the
registry untouched; otherwise `getByName` creates-or-finds the tag's tracker
and the call returns whatever `ComponentTracker.addElement` returns —
including `undefined` (`none`) when the usage was buffered. -/
def TemplateRequireInputTracker.addElement (st : TRITState) (fileName : String)
    (element : ElementAst) : Option (List IFailure) × TRITState :=
  if skippedElementNames.contains element.name then (none, st)
  else if matchesNgPattern element.name then (none, st)
  else
    let ct := (st.lookup element.name).getD CTState.init
    let r := ComponentTracker.addElement ct fileName element
    (r.1, st.set element.name r.2)

/-- `TemplateRequireInputTracker.addComponent`: no skip-list here — the
declaration always reaches (and lazily creates) the tag's tracker. -/
def TemplateRequireInputTracker.addComponent (st : TRITState) (name : String)
    (options : IComponent) : List IFailure × TRITState :=
  let ct := (st.lookup name).getD CTState.init
  let r := ComponentTracker.addComponent ct options
  (r.1, st.set name r.2)

/-- Claim C8: a usage whose tag name is a literal member of the skip-list, or
matches its name pattern, produces no finding and leaves the registry
unchanged (no tracker entry is created for it) — whatever the registry
already holds, including a previously registered component declaration under
that same tag name. -/
theorem C8_theorem (st : TRITState) (fileName : String) (element : ElementAst)
    (h : skippedElementNames.contains element.name = true
      ∨ matchesNgPattern element.name = true) :
    TemplateRequireInputTracker.addElement st fileName element = (none, st) := by
  rcases h with h | h
  · unfold TemplateRequireInputTracker.addElement
    rw [h]
    simp
  · unfold TemplateRequireInputTracker.addElement
    rw [h]
    cases hc : skippedElementNames.contains element.name <;> simp

/-- Witness for Claim C8: a `<div>` usage after a component declaration was
registered for tag `div`, and an `<ng-content>` usage — both dropped with
the registry unchanged. -/
theorem C8_witness :
    (skippedElementNames.contains "div" = true ∨ matchesNgPattern "div" = true)
    ∧ TemplateRequireInputTracker.addElement
        (TemplateRequireInputTracker.addComponent TRITState.init "div" fooComponent).2
        "file.ts" (ElementAst.mk "div" [] [] 3)
      = (none,
         (TemplateRequireInputTracker.addComponent TRITState.init "div" fooComponent).2)
    ∧ (skippedElementNames.contains "ng-content" = true
        ∨ matchesNgPattern "ng-content" = true)
    ∧ TemplateRequireInputTracker.addElement TRITState.init "file.ts"
        (ElementAst.mk "ng-content" [] [] 7)
      = (none, TRITState.init) :=
  ⟨Or.inl (by decide),
   C8_theorem _ "file.ts" (ElementAst.mk "div" [] [] 3) (Or.inl (by decide)),
   Or.inr (by decide),
   C8_theorem TRITState.init "file.ts" (ElementAst.mk "ng-content" [] [] 7)
     (Or.inr (by decide))⟩

/-- Claim C9 (refuted — the code has the bug, the claim states the intended
contract): the value handed back to `visitElement` is *not* always an array.
`TemplateRequireInputTracker.addElement` returns `null` for a skip-listed tag
(`<div>`), and falls through to `undefined` (via `ComponentTracker.addElement`)
when the usage arrives before its tag's declaration and is buffered — the
very scenario the repository's own tests exercise. In both cases the
visitor's `.addElement(...).forEach(...)` dereferences `null`/`undefined`. -/
theorem C9_theorem :
    (TemplateRequireInputTracker.addElement TRITState.init "file.ts"
        (ElementAst.mk "div" [] [] 3)).1 = none
    ∧ (TemplateRequireInputTracker.addElement TRITState.init "file.ts" foobarUse).1 = none
    ∧ (ComponentTracker.addElement CTState.init "file.ts" foobarUse).1 = none :=
  ⟨rfl, rfl, rfl⟩
